import Mathlib

/-!
# TravelSync: trip-folder routes

A shallow embedding of `routes/tripFolders.js`: the folder store, the
membership handlers (`PUT /:tripID/addUser`, `PUT /:tripId/removeUser`), folder
creation, the edit and attach-file handlers and the folder listing
(`loadSearchableFolders`), followed by the properties proved about them.

Conventions of the embedding.

* A handler is a function from the collaborators' answers (`Env`), the
  persistent store (`Db`) and the request to an `Outcome`: the response, the
  store afterwards, the value caught by the handler's `catch` (if any) and the
  folder documents handed to `tripFolder.save()`.
* Values raised by `throw` are `Thrown`: a bare string, or an error object.
* A redirect keeps its path and its `errorMessage` query parameter apart; the
  parameter holds the text that `encodeURIComponent` is applied to.
* A `catch` block that itself raises (it reads the block-scoped `tripFolder`
  of the `try`) sends no response: `Response.crashed`.
-/

namespace TravelSync

/-! ## Data model -/

/-- Document identifier (`_id` rendered by the `id` getter). -/
abbrev ObjectId := String

/-- A value raised by `throw`: a bare string or an error object. -/
inductive Thrown where
  | str (s : String)
  | error (name : String) (message : String)
  deriving DecidableEq, Repr

/-- String conversion applied by `encodeURIComponent(err)`. -/
def Thrown.text : Thrown → String
  | .str s => s
  | .error n m => n ++ ": " ++ m

/-- The fields of a user account read by the routes. -/
structure User where
  id : ObjectId
  username : String
  isPrivate : Bool
  deriving DecidableEq, Repr

/-- The value held by the `tripDate` field of a folder: the object
`new Date(source)` built by the create handler (an Invalid Date when the source
is missing or cannot be parsed), or the request value assigned by the edit
handler. -/
inductive TripDate where
  | newDate (source : Option String)
  | assigned (value : Option String)
  deriving DecidableEq, Repr

/-- A trip-folder document. -/
structure TripFolder where
  id : ObjectId
  folderName : Option String
  tripDate : TripDate
  users : List ObjectId
  isShared : Bool
  tripFiles : List ObjectId
  deriving DecidableEq, Repr

/-- A trip-file document. -/
structure TripFile where
  id : ObjectId
  title : Option String
  description : Option String
  userSetDate : Option String
  uploadedBy : ObjectId
  image : Option String
  imageType : Option String
  deriving DecidableEq, Repr

/-- The persistent collections. -/
structure Db where
  users : List User
  folders : List TripFolder
  files : List TripFile
  deriving DecidableEq, Repr

/-- Modelled from the spec: the `TripFolder` schema (`models/tripFolder`) is not
part of the sources; a folder is created with PRIVATE visibility, so the
default of `isShared` is `false`. -/
def defaultIsShared : Bool := false

/-- The request fields read by the routes. -/
structure Request where
  authError : Option String := none
  tripID : ObjectId := ""
  addUsername : Option String := none
  folderName : Option String := none
  tripDate : Option String := none
  title : Option String := none
  description : Option String := none
  userSetDate : Option String := none
  image : Option String := none
  queryFolderName : Option String := none
  deriving DecidableEq, Repr

/-- The payload of an encoded image after `JSON.parse`. -/
structure Image where
  type : String
  data : String
  deriving DecidableEq, Repr

/-- A regular-expression object: its source and flags. -/
structure RegExp where
  source : String
  flags : String
  deriving DecidableEq, Repr

/-- The filter handed to `TripFolder.find`. -/
structure SearchOptions where
  folderName : Option RegExp := none
  users : Option ObjectId := none
  isShared : Option Bool := none
  deriving DecidableEq, Repr

/-- Answers of the collaborators and of the platform during one request: the
user resolved by `retrieveUser`, rejections of the store calls, the identifier
given to a new document, `JSON.parse` on the encoded image, the constructor
`new RegExp(source, "i")` and the store's matching of a name against a
regular expression. -/
structure Env where
  retrieved : Except Thrown (Option User)
  folderFindFault : Option Thrown := none
  userFindFault : Option Thrown := none
  folderSaveFault : Option Thrown := none
  fileSaveFault : Option Thrown := none
  folderQueryFault : Option Thrown := none
  freshId : ObjectId := ""
  jsonParse : String → Except Thrown (Option Image) := fun _ => .ok none
  newRegExp : String → Except Thrown RegExp := fun s => .ok { source := s, flags := "i" }
  regExpTest : RegExp → String → Bool := fun _ _ => true

/-- What a view is rendered with. -/
structure RenderContext where
  user : Option User := none
  tripFolder : Option TripFolder := none
  tripFolders : Option (List TripFolder) := none
  searchOptions : Option (Option String) := none
  tripFiles : Option (List TripFile) := none
  errorMessage : Option String := none
  deriving DecidableEq, Repr

/-- The response of a handler. -/
inductive Response where
  | redirect (path : String) (errorMessage : Option String)
  | render (view : String) (context : RenderContext)
  | crashed (err : Thrown)
  deriving DecidableEq, Repr

/-- Result of running a handler. -/
structure Outcome where
  response : Response
  db : Db
  caught : Option Thrown
  saves : List TripFolder
  deriving DecidableEq, Repr

/-! ## Store operations -/

/-- `TripFolder.findById(id)` on the collection. -/
def findById (folders : List TripFolder) (id : ObjectId) : Option TripFolder :=
  folders.find? (fun f => f.id == id)

/-- `User.findOne({ username })` on the collection. -/
def findOne (users : List User) (username : String) : Option User :=
  users.find? (fun u => u.username == username)

/-- `tripFolder.save()`: replaces the stored document of the same id, or
inserts the document when there is none. -/
def saveFolder (folders : List TripFolder) (f : TripFolder) : List TripFolder :=
  if folders.any (fun g => g.id == f.id) then
    folders.map (fun g => if g.id == f.id then f else g)
  else folders ++ [f]

/-- `Array.prototype.indexOf`: first position of the element, `-1` if absent. -/
def indexOf (xs : List ObjectId) (x : ObjectId) : Int :=
  if xs.indexOf x < xs.length then (xs.indexOf x : Int) else -1

/-- `xs.splice(index, 1)` for a non-negative index. -/
def splice1 (xs : List ObjectId) (index : Int) : List ObjectId :=
  xs.eraseIdx index.toNat

/-- JavaScript truthiness of an optional string. -/
def truthy : Option String → Bool
  | none => false
  | some s => s != ""

/-- `TripFolder.findById(id)` as awaited by a handler. -/
def awaitFindById (env : Env) (db : Db) (id : ObjectId) : Except Thrown (Option TripFolder) :=
  match env.folderFindFault with
  | some e => .error e
  | none => .ok (findById db.folders id)

/-- `User.findOne({ username })` as awaited by a handler. -/
def awaitFindOne (env : Env) (db : Db) (username : String) : Except Thrown (Option User) :=
  match env.userFindFault with
  | some e => .error e
  | none => .ok (findOne db.users username)

/-- `tripFolder.save()` as awaited by a handler. -/
def awaitSave (env : Env) (f : TripFolder) : Except Thrown TripFolder :=
  match env.folderSaveFault with
  | some e => .error e
  | none => .ok f

/-- Reading a property of `null`. -/
def nullRead (property : String) : Thrown :=
  .error "TypeError" ("Cannot read properties of null (reading '" ++ property ++ "')")

/-- Reading a variable that is not in scope. -/
def notDefined (ident : String) : Thrown :=
  .error "ReferenceError" (ident ++ " is not defined")

/-- The comparison `err === req.authError`. -/
def isAuthError (req : Request) (err : Thrown) : Bool :=
  match req.authError, err with
  | some a, .str s => a == s
  | _, _ => false

/-! ## `PUT /:tripID/addUser` -/

/-- Message raised when the requester's account is private. -/
def msgMustBeShared : String :=
  "User must be a shared account to add users. Please update account information."

/-- The first message the `catch` of the add-user handler compares with. -/
def msgMustBeSharedCaught : String :=
  "User must be shared account to add users. Please update account information."

/-- Message raised for a missing or invalid target. -/
def msgErrorAdding : String := "Error adding selected user"

/-- Message raised when the target is already a member. -/
def msgAlreadyAdded : String := "User selected is already added to current folder."

/-- The `try` block of `PUT /:tripID/addUser` up to and including the save:
the document that was saved, or the value raised. -/
def addUserTry (env : Env) (db : Db) (req : Request) : Except Thrown TripFolder := do
  if truthy req.authError then throw (Thrown.str (req.authError.getD ""))
  let tripFolder ← awaitFindById env db req.tripID
  let user ← env.retrieved
  let user ← match user with
    | some u => pure u
    | none => throw (nullRead "isPrivate")
  if user.isPrivate then throw (Thrown.str msgMustBeShared)
  if !(truthy req.addUsername) || req.addUsername == some "" then
    throw (Thrown.str msgErrorAdding)
  let addedUser ← awaitFindOne env db (req.addUsername.getD "")
  let tripFolder ← match tripFolder with
    | some f => pure f
    | none => throw (nullRead "users")
  match addedUser with
  | none => throw (nullRead "id")
  | some addedUser =>
    if indexOf tripFolder.users addedUser.id > -1 then throw (Thrown.str msgAlreadyAdded)
    if addedUser.isPrivate || addedUser.username == user.username then
      throw (Thrown.str msgErrorAdding)
    awaitSave env { tripFolder with users := tripFolder.users ++ [addedUser.id], isShared := true }

/-- The `catch` block of `PUT /:tripID/addUser`. -/
def addUserCatch (req : Request) (err : Thrown) : Response :=
  if isAuthError req err then .redirect "/" (some err.text)
  else if err == .str msgMustBeSharedCaught || err == .str msgErrorAdding
      || err == .str msgAlreadyAdded then
    .redirect ("/tripFolders/" ++ req.tripID ++ "/addUser") (some err.text)
  else .redirect "/tripFolders" none

/-- The handler `PUT /:tripID/addUser`. -/
def putAddUser (env : Env) (db : Db) (req : Request) : Outcome :=
  match addUserTry env db req with
  | .ok f =>
    { response := .redirect ("/tripFolders/" ++ f.id) none
      db := { db with folders := saveFolder db.folders f }
      caught := none
      saves := [f] }
  | .error e => { response := addUserCatch req e, db := db, caught := some e, saves := [] }

/-! ## `PUT /:tripId/removeUser` -/

/-- Message raised when the requester is not a member. -/
def msgErrorRemoving : String := "Error removing user from trip folder"

/-- The `try` block of `PUT /:tripId/removeUser` up to and including the save. -/
def removeUserTry (env : Env) (db : Db) (req : Request) : Except Thrown TripFolder := do
  if truthy req.authError then throw (Thrown.str (req.authError.getD ""))
  let user ← env.retrieved
  let tripFolder ← awaitFindById env db req.tripID
  let tripFolder ← match tripFolder with
    | some f => pure f
    | none => throw (nullRead "users")
  let user ← match user with
    | some u => pure u
    | none => throw (nullRead "id")
  let index := indexOf tripFolder.users user.id
  if !(index > -1) then throw (Thrown.str msgErrorRemoving)
  let users := splice1 tripFolder.users index
  let isShared := if users.length == 1 then false else tripFolder.isShared
  awaitSave env { tripFolder with users := users, isShared := isShared }

/-- The `catch` block of `PUT /:tripId/removeUser`: outside the authentication
case it reads `tripFolder`, which is scoped to the `try` block. -/
def removeUserCatch (req : Request) (err : Thrown) : Response :=
  if isAuthError req err then .redirect "/" (some err.text)
  else .crashed (notDefined "tripFolder")

/-- The handler `PUT /:tripId/removeUser`. -/
def putRemoveUser (env : Env) (db : Db) (req : Request) : Outcome :=
  match removeUserTry env db req with
  | .ok f =>
    { response := .redirect "/tripFolders" none
      db := { db with folders := saveFolder db.folders f }
      caught := none
      saves := [f] }
  | .error e => { response := removeUserCatch req e, db := db, caught := some e, saves := [] }

/-! ## `POST /create` -/

/-- The `try` block of `POST /create` up to and including the save. -/
def createTry (env : Env) (req : Request) : Except Thrown TripFolder := do
  if truthy req.authError then throw (Thrown.str (req.authError.getD ""))
  let user ← env.retrieved
  let user ← match user with
    | some u => pure u
    | none => throw (nullRead "id")
  awaitSave env
    { id := env.freshId
      folderName := req.folderName
      tripDate := .newDate req.tripDate
      users := [user.id]
      isShared := defaultIsShared
      tripFiles := [] }

/-- The handler `POST /create`. -/
def postCreate (env : Env) (db : Db) (req : Request) : Outcome :=
  match createTry env req with
  | .ok f =>
    { response := .redirect ("/tripFolders/" ++ f.id) none
      db := { db with folders := saveFolder db.folders f }
      caught := none
      saves := [f] }
  | .error e => { response := .redirect "/" (some e.text), db := db, caught := some e, saves := [] }

/-! ## `PUT /:tripID` -/

/-- The `try` block of `PUT /:tripID` up to and including the save. -/
def editTry (env : Env) (db : Db) (req : Request) : Except Thrown TripFolder := do
  if truthy req.authError then throw (Thrown.str (req.authError.getD ""))
  let _user ← env.retrieved
  let tripFolder ← awaitFindById env db req.tripID
  let tripFolder ← match tripFolder with
    | some f => pure f
    | none => throw (Thrown.error "TypeError" "Cannot set properties of null (setting 'folderName')")
  awaitSave env
    { tripFolder with folderName := req.folderName, tripDate := .assigned req.tripDate }

/-- The `catch` block of `PUT /:tripID`: the render context reads `tripFolder`,
which is scoped to the `try` block. -/
def editCatch (req : Request) (err : Thrown) : Response :=
  if isAuthError req err then .redirect "/" (some err.text)
  else .crashed (notDefined "tripFolder")

/-- The handler `PUT /:tripID`. -/
def putTripFolder (env : Env) (db : Db) (req : Request) : Outcome :=
  match editTry env db req with
  | .ok f =>
    { response := .redirect ("/tripFolders/" ++ f.id) none
      db := { db with folders := saveFolder db.folders f }
      caught := none
      saves := [f] }
  | .error e => { response := editCatch req e, db := db, caught := some e, saves := [] }

/-! ## `POST /:tripID/addFile` -/

/-- The accepted image types. -/
def imageMimeTypes : List String :=
  ["image/jpeg", "image/png", "image/gif", "image/bmp", "image/webp", "image/tiff",
    "image/svg+xml"]

/-- The function `saveImage` applied to a trip file. -/
def saveImage (env : Env) (tripFile : TripFile) (imgEncoded : Option String) :
    Except Thrown TripFile :=
  match imgEncoded with
  | none => .ok tripFile
  | some encoded =>
    match env.jsonParse encoded with
    | .error e => .error e
    | .ok none => .ok tripFile
    | .ok (some image) =>
      if imageMimeTypes.contains image.type then
        .ok { tripFile with image := some image.data, imageType := some image.type }
      else .ok tripFile

/-- The `try` block of `POST /:tripID/addFile` up to and including the save of
the file: the folder found and the file saved. -/
def addFileSaveFile (env : Env) (db : Db) (req : Request) :
    Except Thrown (Option TripFolder × TripFile) := do
  if truthy req.authError then throw (Thrown.str (req.authError.getD ""))
  let user ← env.retrieved
  let tripFolder ← awaitFindById env db req.tripID
  let user ← match user with
    | some u => pure u
    | none => throw (nullRead "id")
  let tripFile ← saveImage env
    { id := env.freshId
      title := req.title
      description := req.description
      userSetDate := req.userSetDate
      uploadedBy := user.id
      image := none
      imageType := none } req.image
  match env.fileSaveFault with
  | some e => throw e
  | none => pure (tripFolder, tripFile)

/-- The rest of the `try` block of `POST /:tripID/addFile`: the file id is
pushed on the folder and the folder is saved. -/
def addFileSaveFolder (env : Env) (tripFolder : Option TripFolder) (newTripFile : TripFile) :
    Except Thrown TripFolder :=
  match tripFolder with
  | none => .error (nullRead "tripFiles")
  | some f => awaitSave env { f with tripFiles := f.tripFiles ++ [newTripFile.id] }

/-- The `catch` block of `POST /:tripID/addFile`: the render context reads
`tripFolder`, which is scoped to the `try` block. -/
def addFileCatch (req : Request) (err : Thrown) : Response :=
  if isAuthError req err then .redirect "/" (some err.text)
  else .crashed (notDefined "tripFolder")

/-- The handler `POST /:tripID/addFile`. -/
def postAddFile (env : Env) (db : Db) (req : Request) : Outcome :=
  match addFileSaveFile env db req with
  | .error e => { response := addFileCatch req e, db := db, caught := some e, saves := [] }
  | .ok (tripFolder, newTripFile) =>
    let db1 : Db := { db with files := db.files ++ [newTripFile] }
    match addFileSaveFolder env tripFolder newTripFile with
    | .error e => { response := addFileCatch req e, db := db1, caught := some e, saves := [] }
    | .ok f =>
      { response := .redirect ("/tripFolders/" ++ f.id) none
        db := { db1 with folders := saveFolder db1.folders f }
        caught := none
        saves := [f] }

/-! ## Folder listing -/

/-- Message rendered for a private account. -/
def msgSharedToAccess : String :=
  "User must be a shared account to access! Please update user information."

/-- Result of the listing: the calls made on `res` in order, the filters
handed to `TripFolder.find`, and the value the function raised, if any. -/
structure Listing where
  sent : List Response
  queries : List SearchOptions
  raised : Option Thrown
  deriving DecidableEq, Repr

/-- Whether a folder document matches a filter. -/
def matchesOptions (env : Env) (o : SearchOptions) (f : TripFolder) : Bool :=
  (match o.folderName with
    | none => true
    | some re =>
      match f.folderName with
      | some n => env.regExpTest re n
      | none => false)
  && (match o.users with
    | none => true
    | some u => f.users.contains u)
  && (match o.isShared with
    | none => true
    | some b => f.isShared == b)

/-- `TripFolder.find(searchOptions)` as awaited by the listing. -/
def awaitFind (env : Env) (db : Db) (o : SearchOptions) : Except Thrown (List TripFolder) :=
  match env.folderQueryFault with
  | some e => .error e
  | none => .ok (db.folders.filter (matchesOptions env o))

/-- The name filter of the listing: `new RegExp(req.query.folderName, "i")`
when the query has a non-empty folder name. -/
def searchName (env : Env) (req : Request) : Except Thrown (Option RegExp) :=
  match req.queryFolderName with
  | none => .ok none
  | some n => if n != "" then (env.newRegExp n).map some else .ok none

/-- The function `loadSearchableFolders(req, res, user, folderType)`. -/
def loadSearchableFolders (env : Env) (db : Db) (req : Request) (user : Option User)
    (folderType : String) : Listing :=
  match searchName env req with
  | .error e => { sent := [], queries := [], raised := some e }
  | .ok folderName =>
    let sent0 : List Response :=
      match user with
      | some _ => []
      | none => [.redirect "/" none]
    let searchOptions : SearchOptions :=
      { folderName := folderName
        users := user.map (fun u => u.id)
        isShared := some (if folderType == "private" then false else true) }
    match user with
    | none => { sent := sent0, queries := [], raised := some (nullRead "isPrivate") }
    | some u =>
      if u.isPrivate == true then
        { sent := sent0 ++ [.render ("tripFolders/" ++ folderType)
            { user := some u, searchOptions := some req.queryFolderName,
              errorMessage := some msgSharedToAccess }]
          queries := []
          raised := none }
      else
        match awaitFind env db searchOptions with
        | .ok tripFolders =>
          { sent := sent0 ++ [.render ("tripFolders/" ++ folderType)
              { tripFolders := some tripFolders, user := some u,
                searchOptions := some req.queryFolderName }]
            queries := [searchOptions]
            raised := none }
        | .error _ =>
          { sent := sent0 ++ [.redirect "/" none], queries := [searchOptions], raised := none }

/-- The routes `GET /private` and `GET /shared`, by folder type. -/
def getListing (env : Env) (db : Db) (req : Request) (folderType : String) : Listing :=
  if truthy req.authError then
    { sent := [.redirect "/" (some (req.authError.getD ""))], queries := [], raised := none }
  else
    match env.retrieved with
    | .error e => { sent := [.redirect "/" (some e.text)], queries := [], raised := none }
    | .ok user =>
      let l := loadSearchableFolders env db req user folderType
      match l.raised with
      | some e => { sent := l.sent ++ [.redirect "/" (some e.text)], queries := l.queries,
                    raised := none }
      | none => l

/-- A sound fragment of the pattern check of `new RegExp(source, "i")`, with
the reasons the platform gives: groups and character classes must be closed, a
closing parenthesis must have an opening one, the pattern may not end in a lone
backslash, and no alternative may start with a quantifier. The third argument
tells whether the scan is inside a character class; the fourth is 1 at the
start of the pattern and after a bar, 2 after an opening parenthesis and 0
elsewhere. A pattern it rejects is rejected by the platform with a
`SyntaxError`; the other early errors of the platform (a quantifier after a
quantifier or an assertion, an invalid group specifier, a class range out of
order, and so on) are not looked for, so it accepts some patterns that the
platform rejects. -/
def scanPattern : List Char → Nat → Bool → Nat → Option String
  | [], depth, inClass, _ =>
    if inClass then some "Unterminated character class"
    else if depth > 0 then some "Unterminated group"
    else none
  | c :: cs, depth, inClass, start =>
    if c == Char.ofNat 92 then
      match cs with
      | [] => some "\\ at end of pattern"
      | _ :: rest => scanPattern rest depth inClass 0
    else if inClass then scanPattern cs depth (c != Char.ofNat 93) 0
    else if c == Char.ofNat 91 then scanPattern cs depth true 0
    else if c == Char.ofNat 40 then scanPattern cs (depth + 1) false 2
    else if c == Char.ofNat 41 then
      match depth with
      | 0 => some "Unmatched ')'"
      | d + 1 => scanPattern cs d false 0
    else if c == Char.ofNat 124 then scanPattern cs depth false 1
    else if (c == Char.ofNat 42 || c == Char.ofNat 43) && start != 0 then
      some "Nothing to repeat"
    else if c == Char.ofNat 63 && start == 1 then some "Nothing to repeat"
    else scanPattern cs depth false 0

/-- A stand-in for the constructor `new RegExp(source, "i")`: it raises the
`SyntaxError` of the platform for the patterns that `scanPattern` rejects and
builds the object otherwise. -/
def newRegExpChecked (source : String) : Except Thrown RegExp :=
  match scanPattern source.toList 0 false 1 with
  | some reason =>
    .error (.error "SyntaxError"
      ("Invalid regular expression: /" ++ source ++ "/i: " ++ reason))
  | none => .ok { source := source, flags := "i" }

/-! ## Membership state machine -/

/-- The visibility invariant of a folder: shared exactly when it has at least
two members. -/
def visibilityOk (f : TripFolder) : Prop :=
  f.isShared = true ↔ 2 ≤ f.users.length

instance : DecidablePred visibilityOk := fun f => by
  unfold visibilityOk
  infer_instance

/-- The request is served for the authenticated user `u` and no store call
is rejected. -/
def Env.serves (env : Env) (u : User) : Prop :=
  env.retrieved = .ok (some u) ∧ env.folderFindFault = none ∧ env.userFindFault = none ∧
    env.folderSaveFault = none

/-- A membership request: an add-user or a remove-user call with the answers
of the collaborators for it. -/
inductive MemberCall where
  | addMember (env : Env) (req : Request)
  | removeMember (env : Env) (req : Request)

/-- The store after a membership request. -/
def applyCall (db : Db) : MemberCall → Db
  | .addMember env req => (putAddUser env db req).db
  | .removeMember env req => (putRemoveUser env db req).db

/-- The store after a sequence of membership requests. -/
def runCalls (db : Db) : List MemberCall → Db
  | [] => db
  | c :: cs => runCalls (applyCall db c) cs

/-- The request is an add-user call on folder `id` that succeeds while the
folder has no member. -/
def addsToEmpty (id : ObjectId) (db : Db) : MemberCall → Bool
  | .addMember env req =>
    req.tripID == id &&
      (match findById db.folders id with
        | some f => f.users.isEmpty
        | none => false) &&
      (putAddUser env db req).caught.isNone
  | .removeMember _ _ => false

/-- No request of the sequence is an add-user call on folder `id` that
succeeds while the folder has no member. -/
def neverAddsToEmpty (id : ObjectId) : Db → List MemberCall → Bool
  | _, [] => true
  | db, c :: cs => !addsToEmpty id db c && neverAddsToEmpty id (applyCall db c) cs

/-- The membership fields of a folder. -/
def membership (f : TripFolder) : List ObjectId × Bool := (f.users, f.isShared)

/-! ## Sample data -/

/-- A shared account. -/
def alice : User := { id := "u-alice", username := "alice", isPrivate := false }

/-- A second shared account. -/
def bob : User := { id := "u-bob", username := "bob", isPrivate := false }

/-- A private account. -/
def carol : User := { id := "u-carol", username := "carol", isPrivate := true }

/-- A folder whose only member is `alice`. -/
def aliceFolder : TripFolder :=
  { id := "f1", folderName := some "Lisbon", tripDate := .newDate (some "2024-05-01"),
    users := ["u-alice"], isShared := false, tripFiles := [] }

/-- A store with three accounts and the folder of `alice`. -/
def sampleDb : Db := { users := [alice, bob, carol], folders := [aliceFolder], files := [] }

/-- A store with the three accounts and no folder. -/
def emptyDb : Db := { users := [alice, bob, carol], folders := [], files := [] }

/-- The collaborators' answers for a request of user `u`, without failures. -/
def session (u : User) : Env := { retrieved := .ok (some u), freshId := "f1" }

/-- The answers for a request of user `u` with `newRegExpChecked` standing in
for the `RegExp` constructor. -/
def checkedSession (u : User) : Env :=
  { retrieved := .ok (some u), freshId := "f1", newRegExp := newRegExpChecked }

/-! ## Lemmas on the store -/

theorem findById_id {fs : List TripFolder} {id : ObjectId} {f : TripFolder}
    (h : findById fs id = some f) : f.id = id := by
  have := List.find?_some h
  simpa using this

theorem findById_saveFolder_self (fs : List TripFolder) (g : TripFolder) :
    findById (saveFolder fs g) g.id = some g := by
  unfold saveFolder findById
  split
  · rename_i h
    induction fs with
    | nil => simp at h
    | cons a t ih =>
      by_cases ha : a.id = g.id
      · simp [List.find?_cons, ha]
      · have ht : t.any (fun x => x.id == g.id) = true := by simpa [ha] using h
        have := ih ht
        simpa [List.find?_cons, ha] using this
  · rename_i h
    induction fs with
    | nil => simp [List.find?_cons]
    | cons a t ih =>
      have ha : ¬ a.id = g.id := by
        intro hc; apply h; simp [hc]
      have ht : ¬ t.any (fun x => x.id == g.id) = true := by
        intro hc; apply h; simp only [List.any_cons, hc, Bool.or_true]
      have := ih ht
      simpa [List.find?_cons, ha] using this

theorem find_replace_other (fs : List TripFolder) (g : TripFolder) (id : ObjectId)
    (hid : g.id ≠ id) :
    (fs.map (fun x => if x.id == g.id then g else x)).find? (fun f => f.id == id) =
      fs.find? (fun f => f.id == id) := by
  induction fs with
  | nil => rfl
  | cons a t ih =>
    rw [List.map_cons, List.find?_cons, List.find?_cons, ih]
    by_cases ha : a.id = g.id
    · have hb : (g.id == id) = false := by simpa using hid
      simp [ha, hb]
    · simp [ha]

theorem findById_saveFolder_other (fs : List TripFolder) (g : TripFolder) (id : ObjectId)
    (hid : g.id ≠ id) : findById (saveFolder fs g) id = findById fs id := by
  unfold saveFolder findById
  split
  · exact find_replace_other fs g id hid
  · simp [List.find?_append, hid]

theorem awaitFindById_ok {env : Env} {db : Db} {id : ObjectId} {v : Option TripFolder}
    (h : awaitFindById env db id = .ok v) : v = findById db.folders id := by
  unfold awaitFindById at h
  split at h
  · cases h
  · cases h; rfl

theorem awaitSave_ok {env : Env} {f g : TripFolder} (h : awaitSave env f = .ok g) : g = f := by
  unfold awaitSave at h
  split at h
  · cases h
  · cases h; rfl

theorem indexOf_gt_iff (xs : List ObjectId) (x : ObjectId) : indexOf xs x > -1 ↔ x ∈ xs := by
  unfold indexOf
  rw [← List.indexOf_lt_length]
  split
  · rename_i h; simp [h]; omega
  · rename_i h; simp [h]

theorem splice1_append_self (xs : List ObjectId) (x : ObjectId) (h : x ∉ xs) :
    splice1 (xs ++ [x]) (indexOf (xs ++ [x]) x) = xs := by
  have h1 : (xs ++ [x]).indexOf x = xs.length := by
    rw [List.indexOf_append_of_not_mem h]; simp
  unfold splice1 indexOf
  rw [h1, if_pos (by simp), Int.toNat_ofNat,
    List.eraseIdx_append_of_length_le (Nat.le_refl _)]
  simp

theorem splice1_length (xs : List ObjectId) (x : ObjectId) (h : x ∈ xs) :
    (splice1 xs (indexOf xs x)).length = xs.length - 1 := by
  have h1 : xs.indexOf x < xs.length := List.indexOf_lt_length.mpr h
  unfold splice1 indexOf
  rw [if_pos h1, Int.toNat_ofNat, List.length_eraseIdx, if_pos h1]

theorem awaitFindOne_ok {env : Env} {db : Db} {name : String} {v : Option User}
    (h : awaitFindOne env db name = .ok v) : v = findOne db.users name := by
  unfold awaitFindOne at h
  split at h
  · cases h
  · cases h; rfl

theorem truthy_false_iff (o : Option String) :
    (!truthy o || o == some "") = true ↔ o = none ∨ o = some "" := by
  cases o with
  | none => simp [truthy]
  | some s => by_cases hs : s = "" <;> simp [truthy, hs]

/-- Everything that holds when the `try` block of the add-user handler
reaches its end. -/
theorem addUserTry_ok {env : Env} {db : Db} {req : Request} {g : TripFolder}
    (h : addUserTry env db req = .ok g) :
    ∃ (f : TripFolder) (t u : User),
      truthy req.authError = false ∧ env.retrieved = .ok (some u) ∧ u.isPrivate = false ∧
      ¬ (req.addUsername = none ∨ req.addUsername = some "") ∧
      findOne db.users (req.addUsername.getD "") = some t ∧
      t.isPrivate = false ∧ t.username ≠ u.username ∧
      findById db.folders req.tripID = some f ∧ t.id ∉ f.users ∧
      g = { f with users := f.users ++ [t.id], isShared := true } := by
  unfold addUserTry at h
  simp only [bind, Except.bind, pure, Except.pure, throw, throwThe, MonadExceptOf.throw] at h
  split at h
  · cases h
  split at h
  · cases h
  split at h
  · cases h
  split at h
  swap
  · cases h
  split at h
  · cases h
  split at h
  · cases h
  split at h
  · cases h
  split at h
  swap
  · cases h
  split at h
  · cases h
  split at h
  · cases h
  split at h
  · cases h
  rename_i hauth _ _ _ u hret hpriv hname _ _ f hfind _ t hone hidx htgt
  have hf := awaitFindById_ok hfind
  have ht := awaitFindOne_ok hone
  rw [truthy_false_iff] at hname
  rw [indexOf_gt_iff] at hidx
  simp only [Bool.or_eq_true, beq_iff_eq, not_or, Bool.not_eq_true] at htgt
  exact ⟨f, t, u, by simpa using hauth, hret, by simpa using hpriv, hname, ht.symm, htgt.1,
    htgt.2, hf.symm, hidx, awaitSave_ok h⟩

/-- The outcome of a failed add-user call. -/
theorem putAddUser_error {env : Env} {db : Db} {req : Request} {e : Thrown}
    (h : addUserTry env db req = .error e) :
    putAddUser env db req =
      { response := addUserCatch req e, db := db, caught := some e, saves := [] } := by
  unfold putAddUser; rw [h]

/-- The outcome of a successful add-user call. -/
theorem putAddUser_ok {env : Env} {db : Db} {req : Request} {g : TripFolder}
    (h : addUserTry env db req = .ok g) :
    putAddUser env db req =
      { response := .redirect ("/tripFolders/" ++ g.id) none
        db := { db with folders := saveFolder db.folders g }
        caught := none
        saves := [g] } := by
  unfold putAddUser; rw [h]

/-- The `try` block of the add-user handler succeeds for a shared requester
and a valid target that is not yet a member. -/
theorem addUserTry_valid {env : Env} {db : Db} {req : Request} {a b : User} {f : TripFolder}
    (hauth : truthy req.authError = false) (henv : env.serves a) (ha : a.isPrivate = false)
    (hname : req.addUsername = some b.username) (hne : b.username ≠ "")
    (hb : findOne db.users b.username = some b) (hbp : b.isPrivate = false)
    (hab : b.username ≠ a.username)
    (hf : findById db.folders req.tripID = some f) (hmem : b.id ∉ f.users) :
    addUserTry env db req = .ok { f with users := f.users ++ [b.id], isShared := true } := by
  obtain ⟨h1, h2, h3, h4⟩ := henv
  have hidx : ¬ indexOf f.users b.id > -1 := by rw [indexOf_gt_iff]; exact hmem
  have hn : truthy (some b.username) = true := by simp [truthy, hne]
  unfold addUserTry
  simp only [bind, Except.bind, pure, Except.pure, throw, throwThe, MonadExceptOf.throw]
  simp [hauth, awaitFindById, awaitFindOne, awaitSave, h1, h2, h3, h4, ha, hname, hn, hne,
    hb, hbp, hab, hf, hidx]

/-- The `try` block of the add-user handler raises the already-added message
for a shared requester and an existing target that is a member. -/
theorem addUserTry_member {env : Env} {db : Db} {req : Request} {a b : User} {f : TripFolder}
    (hauth : truthy req.authError = false) (henv : env.serves a) (ha : a.isPrivate = false)
    (hname : req.addUsername = some b.username) (hne : b.username ≠ "")
    (hb : findOne db.users b.username = some b)
    (hf : findById db.folders req.tripID = some f) (hmem : b.id ∈ f.users) :
    addUserTry env db req = .error (.str msgAlreadyAdded) := by
  obtain ⟨h1, h2, h3, h4⟩ := henv
  have hidx : indexOf f.users b.id > -1 := by rw [indexOf_gt_iff]; exact hmem
  have hn : truthy (some b.username) = true := by simp [truthy, hne]
  unfold addUserTry
  simp only [bind, Except.bind, pure, Except.pure, throw, throwThe, MonadExceptOf.throw]
  simp [hauth, awaitFindById, awaitFindOne, h1, h2, h3, ha, hname, hn, hne,
    hb, hf, hidx]

theorem removeUserTry_ok {env : Env} {db : Db} {req : Request} {g : TripFolder}
    (h : removeUserTry env db req = .ok g) :
    ∃ (f : TripFolder) (u : User), findById db.folders req.tripID = some f ∧ u.id ∈ f.users ∧
      g = { f with users := splice1 f.users (indexOf f.users u.id),
                   isShared := if (splice1 f.users (indexOf f.users u.id)).length == 1 then false
                     else f.isShared } := by
  unfold removeUserTry at h
  simp only [bind, Except.bind, pure, Except.pure, throw, throwThe, MonadExceptOf.throw] at h
  split at h
  · cases h
  split at h
  · cases h
  split at h
  · cases h
  split at h
  swap
  · cases h
  split at h
  swap
  · cases h
  split at h
  · cases h
  refine ⟨_, _, ?_, ?_, awaitSave_ok h⟩
  · exact (awaitFindById_ok (by assumption)).symm
  · rw [← indexOf_gt_iff]
    rename_i hidx
    simpa using hidx

/-- The `try` block of the remove-user handler for a member. -/
theorem removeUserTry_member {env : Env} {db : Db} {req : Request} {u : User} {f : TripFolder}
    (hauth : truthy req.authError = false) (henv : env.serves u)
    (hf : findById db.folders req.tripID = some f) (hmem : u.id ∈ f.users) :
    removeUserTry env db req = .ok
      { f with users := splice1 f.users (indexOf f.users u.id),
               isShared := if (splice1 f.users (indexOf f.users u.id)).length == 1 then false
                 else f.isShared } := by
  obtain ⟨h1, h2, _, h4⟩ := henv
  have hidx : indexOf f.users u.id > -1 := by rw [indexOf_gt_iff]; exact hmem
  unfold removeUserTry
  simp only [bind, Except.bind, pure, Except.pure, throw, throwThe, MonadExceptOf.throw]
  simp [hauth, awaitFindById, awaitSave, h1, h2, h4, hf, hidx]

/-- The `try` block of the remove-user handler for a non-member. -/
theorem removeUserTry_nonmember {env : Env} {db : Db} {req : Request} {u : User}
    {f : TripFolder} (hauth : truthy req.authError = false)
    (hret : env.retrieved = .ok (some u)) (hfault : env.folderFindFault = none)
    (hf : findById db.folders req.tripID = some f) (hmem : u.id ∉ f.users) :
    removeUserTry env db req = .error (.str msgErrorRemoving) := by
  have hidx : ¬ indexOf f.users u.id > -1 := by rw [indexOf_gt_iff]; exact hmem
  unfold removeUserTry
  simp only [bind, Except.bind, pure, Except.pure, throw, throwThe, MonadExceptOf.throw]
  simp [hauth, awaitFindById, hret, hfault, hf, hidx]

/-- The outcome of a failed remove-user call. -/
theorem putRemoveUser_error {env : Env} {db : Db} {req : Request} {e : Thrown}
    (h : removeUserTry env db req = .error e) :
    putRemoveUser env db req =
      { response := removeUserCatch req e, db := db, caught := some e, saves := [] } := by
  unfold putRemoveUser; rw [h]

/-- The outcome of a successful remove-user call. -/
theorem putRemoveUser_ok {env : Env} {db : Db} {req : Request} {g : TripFolder}
    (h : removeUserTry env db req = .ok g) :
    putRemoveUser env db req =
      { response := .redirect "/tripFolders" none
        db := { db with folders := saveFolder db.folders g }
        caught := none
        saves := [g] } := by
  unfold putRemoveUser; rw [h]

/-! ## Properties of the add-user handler -/

/-- C2 (evaluation at the failing input): when `alice`, a member of her own
folder, submits her own username, the handler raises the already-added message,
not the invalid-target message, and redirects to the add-user form with it; the
store is unchanged. -/
theorem self_add_by_member_reports_already_added :
    putAddUser (session alice) sampleDb { tripID := "f1", addUsername := some "alice" } =
      { response := .redirect "/tripFolders/f1/addUser" (some msgAlreadyAdded)
        db := sampleDb
        caught := some (.str msgAlreadyAdded)
        saves := [] } ∧
    msgAlreadyAdded ≠ msgErrorAdding := by
  decide

/-- C3: when a precondition of the add-user handler fails (the requester is
unauthenticated or private, the target is missing, empty, non-existent,
private, the requester, or already a member), the handler raises, performs no
save and leaves the store as it was, so the folder has the users and the
isShared it had. -/
theorem addUser_failure_leaves_store (env : Env) (db : Db) (req : Request)
    (h : truthy req.authError = true
      ∨ (∃ u : User, env.retrieved = .ok (some u) ∧ u.isPrivate = true)
      ∨ (req.addUsername = none ∨ req.addUsername = some "")
      ∨ findOne db.users (req.addUsername.getD "") = none
      ∨ (∃ t : User, findOne db.users (req.addUsername.getD "") = some t ∧ t.isPrivate = true)
      ∨ (∃ t u : User, findOne db.users (req.addUsername.getD "") = some t ∧
          env.retrieved = .ok (some u) ∧ t.username = u.username)
      ∨ (∃ (t : User) (f : TripFolder), findOne db.users (req.addUsername.getD "") = some t ∧
          findById db.folders req.tripID = some f ∧ t.id ∈ f.users)) :
    (putAddUser env db req).caught ≠ none ∧ (putAddUser env db req).saves = [] ∧
      (putAddUser env db req).db = db ∧
      findById (putAddUser env db req).db.folders req.tripID = findById db.folders req.tripID := by
  cases hres : addUserTry env db req with
  | error e => rw [putAddUser_error hres]; simp
  | ok g =>
    exfalso
    obtain ⟨f, t, u, hauth, hret, hpriv, hname, hone, htp, htu, hf, hmem, -⟩ := addUserTry_ok hres
    rcases h with h | ⟨u', hu', hp⟩ | h | h | ⟨t', ht', hp⟩ | ⟨t', u', ht', hu', hx⟩ | ⟨t', f', ht', hf', hm⟩
    · rw [hauth] at h; cases h
    · rw [hret] at hu'; cases hu'; rw [hpriv] at hp; cases hp
    · exact hname h
    · rw [hone] at h; cases h
    · rw [hone] at ht'; cases ht'; rw [htp] at hp; cases hp
    · rw [hone] at ht'; cases ht'; rw [hret] at hu'; cases hu'; exact htu hx
    · rw [hone] at ht'; cases ht'; rw [hf] at hf'; cases hf'; exact hmem hm

/-- C3 witness: the private account `carol` asks to add `bob`. -/
theorem addUser_failure_leaves_store_witness :
    (putAddUser (session carol) sampleDb { tripID := "f1", addUsername := some "bob" }).caught
        ≠ none ∧
      (putAddUser (session carol) sampleDb { tripID := "f1", addUsername := some "bob" }).saves
        = [] ∧
      (putAddUser (session carol) sampleDb { tripID := "f1", addUsername := some "bob" }).db
        = sampleDb ∧
      findById (putAddUser (session carol) sampleDb
          { tripID := "f1", addUsername := some "bob" }).db.folders "f1"
        = findById sampleDb.folders "f1" :=
  addUser_failure_leaves_store (session carol) sampleDb
    { tripID := "f1", addUsername := some "bob" } (Or.inr (Or.inl ⟨carol, rfl, rfl⟩))

/-- C4 (evaluation at the failing input): the private account `carol` asks to
add `bob`; the handler raises the must-be-shared message, which differs from
the text its `catch` compares with, and the response is the plain redirect to
the folder list, without a message. -/
theorem private_requester_gets_plain_redirect :
    putAddUser (session carol) sampleDb { tripID := "f1", addUsername := some "bob" } =
      { response := .redirect "/tripFolders" none
        db := sampleDb
        caught := some (.str msgMustBeShared)
        saves := [] } ∧
    msgMustBeShared ≠ msgMustBeSharedCaught := by
  decide

/-- C5 (evaluation at the failing input): `alice` asks to add the username
`ghost`, which no account has; reading `id` of the missing account raises a
`TypeError` before the validity test, and the response is the plain redirect to
the folder list, without a message. -/
theorem missing_target_gets_plain_redirect :
    putAddUser (session alice) sampleDb { tripID := "f1", addUsername := some "ghost" } =
      { response := .redirect "/tripFolders" none
        db := sampleDb
        caught := some (nullRead "id")
        saves := [] } ∧
    findOne sampleDb.users "ghost" = none := by
  decide

/-- C6: for a shared requester `a` and a valid target `b` (existing, shared,
another username, not yet a member), the first add-user call succeeds and
appends the id of `b`; the second call raises the already-added message,
redirects to the add-user form with it and leaves the store as the first call
left it, so the id of `b` occurs once in the users of the folder. -/
theorem addUser_twice (env : Env) (db : Db) (req : Request) (a b : User) (f : TripFolder)
    (hauth : truthy req.authError = false) (henv : env.serves a) (ha : a.isPrivate = false)
    (hname : req.addUsername = some b.username) (hne : b.username ≠ "")
    (hb : findOne db.users b.username = some b) (hbp : b.isPrivate = false)
    (hab : b.username ≠ a.username)
    (hf : findById db.folders req.tripID = some f) (hmem : b.id ∉ f.users) :
    (putAddUser env db req).caught = none ∧
    findById (putAddUser env db req).db.folders req.tripID
      = some { f with users := f.users ++ [b.id], isShared := true } ∧
    (putAddUser env (putAddUser env db req).db req).caught = some (.str msgAlreadyAdded) ∧
    (putAddUser env (putAddUser env db req).db req).response
      = .redirect ("/tripFolders/" ++ req.tripID ++ "/addUser") (some msgAlreadyAdded) ∧
    (putAddUser env (putAddUser env db req).db req).saves = [] ∧
    (putAddUser env (putAddUser env db req).db req).db = (putAddUser env db req).db ∧
    (∀ g : TripFolder,
      findById (putAddUser env (putAddUser env db req).db req).db.folders req.tripID = some g →
        g.users = f.users ++ [b.id] ∧ g.users.count b.id = 1) := by
  have hid : f.id = req.tripID := findById_id hf
  have h1 := putAddUser_ok (addUserTry_valid hauth henv ha hname hne hb hbp hab hf hmem)
  have hf1 : findById (putAddUser env db req).db.folders req.tripID
      = some { f with users := f.users ++ [b.id], isShared := true } := by
    rw [h1]
    have := findById_saveFolder_self db.folders
      { f with users := f.users ++ [b.id], isShared := true }
    simpa [hid] using this
  have hb1 : findOne (putAddUser env db req).db.users b.username = some b := by
    rw [h1]; exact hb
  have h2 := putAddUser_error (addUserTry_member (f := { f with users := f.users ++ [b.id], isShared := true })
    hauth henv ha hname hne hb1 hf1 (by simp))
  refine ⟨by rw [h1], hf1, by rw [h2], ?_, by rw [h2], by rw [h2], ?_⟩
  · rw [h2]
    have : isAuthError req (.str msgAlreadyAdded) = false := by
      unfold isAuthError
      cases hq : req.authError with
      | none => rfl
      | some s =>
        simp only [beq_eq_false_iff_ne, ne_eq]
        intro hs
        rw [hq, hs] at hauth
        revert hauth
        decide
    simp [addUserCatch, this, Thrown.text]
  · intro g hg
    rw [h2] at hg
    simp only at hg
    rw [hf1] at hg
    cases hg
    simp [List.count_append, List.count_eq_zero_of_not_mem hmem]

/-- C6 witness: `alice` adds `bob` to her folder twice. -/
theorem addUser_twice_witness :
    (putAddUser (session alice) sampleDb { tripID := "f1", addUsername := some "bob" }).caught
      = none ∧
    (putAddUser (session alice)
        (putAddUser (session alice) sampleDb { tripID := "f1", addUsername := some "bob" }).db
        { tripID := "f1", addUsername := some "bob" }).caught = some (.str msgAlreadyAdded) :=
  have h := addUser_twice (session alice) sampleDb { tripID := "f1", addUsername := some "bob" }
    alice bob aliceFolder (by decide) ⟨rfl, rfl, rfl, rfl⟩ (by decide) (by decide) (by decide)
    (by decide) (by decide) (by decide) (by decide) (by decide)
  ⟨h.1, h.2.2.1⟩

/-! ## Properties of the remove-user handler -/

/-- C7: when an authenticated requester who is not among the users of the
folder calls the remove-user handler, the handler raises the error-removing
message, performs no save, and the store, hence the users and isShared of the
folder, is as before. -/
theorem removeUser_by_nonmember (env : Env) (db : Db) (req : Request) (u : User)
    (f : TripFolder) (hauth : truthy req.authError = false)
    (hret : env.retrieved = .ok (some u)) (hfault : env.folderFindFault = none)
    (hf : findById db.folders req.tripID = some f) (hmem : u.id ∉ f.users) :
    (putRemoveUser env db req).caught = some (.str msgErrorRemoving) ∧
    (putRemoveUser env db req).saves = [] ∧
    (putRemoveUser env db req).db = db ∧
    findById (putRemoveUser env db req).db.folders req.tripID = some f := by
  have h := putRemoveUser_error (removeUserTry_nonmember hauth hret hfault hf hmem)
  rw [h]
  exact ⟨rfl, rfl, rfl, hf⟩

/-- C7 witness: `bob`, who is not a member, asks to leave the folder of
`alice`. -/
theorem removeUser_by_nonmember_witness :
    (putRemoveUser (session bob) sampleDb { tripID := "f1" }).caught
      = some (.str msgErrorRemoving) ∧
    (putRemoveUser (session bob) sampleDb { tripID := "f1" }).saves = [] ∧
    (putRemoveUser (session bob) sampleDb { tripID := "f1" }).db = sampleDb ∧
    findById (putRemoveUser (session bob) sampleDb { tripID := "f1" }).db.folders "f1"
      = some aliceFolder :=
  removeUser_by_nonmember (session bob) sampleDb { tripID := "f1" } bob aliceFolder
    (by decide) rfl rfl (by decide) (by decide)

/-! ## Creation and the membership state machine -/

/-- What holds when the `try` block of the create handler reaches its end. -/
theorem createTry_ok {env : Env} {req : Request} {g : TripFolder}
    (h : createTry env req = .ok g) :
    ∃ u : User, env.retrieved = .ok (some u) ∧
      g = { id := env.freshId, folderName := req.folderName, tripDate := .newDate req.tripDate,
            users := [u.id], isShared := false, tripFiles := [] } := by
  unfold createTry at h
  simp only [bind, Except.bind, pure, Except.pure, throw, throwThe, MonadExceptOf.throw] at h
  split at h
  · cases h
  split at h
  · cases h
  split at h
  swap
  · cases h
  exact ⟨_, by assumption, awaitSave_ok h⟩

/-- The folder stored by a create call that raised nothing. -/
theorem postCreate_stored {env : Env} {db : Db} {req : Request}
    (h : (postCreate env db req).caught = none) :
    ∃ u : User, env.retrieved = .ok (some u) ∧
      findById (postCreate env db req).db.folders env.freshId =
        some { id := env.freshId, folderName := req.folderName, tripDate := .newDate req.tripDate,
               users := [u.id], isShared := false, tripFiles := [] } := by
  unfold postCreate at h ⊢
  cases hres : createTry env req with
  | error e => rw [hres] at h; cases h
  | ok g =>
    obtain ⟨u, hu, hg⟩ := createTry_ok hres
    refine ⟨u, hu, ?_⟩
    have := findById_saveFolder_self db.folders g
    rw [hg] at this
    simpa [hg] using this

/-- A membership request keeps the folder `id` in the store and keeps its
visibility invariant, unless it is an add-user call that succeeds on the
folder while it has no member. -/
theorem applyCall_keeps_visibility (id : ObjectId) (db : Db) (c : MemberCall)
    (hinv : ∃ f, findById db.folders id = some f ∧ visibilityOk f)
    (hg : addsToEmpty id db c = false) :
    ∃ f, findById (applyCall db c).folders id = some f ∧ visibilityOk f := by
  obtain ⟨f, hf, hok⟩ := hinv
  cases c with
  | addMember env req =>
    simp only [applyCall]
    cases hres : addUserTry env db req with
    | error e => rw [putAddUser_error hres]; exact ⟨f, hf, hok⟩
    | ok g =>
      rw [putAddUser_ok hres]
      obtain ⟨f0, t, u, -, -, -, -, -, -, -, hf0, -, hgd⟩ := addUserTry_ok hres
      have hgid : g.id = req.tripID := by rw [hgd]; exact findById_id (f := f0) hf0
      by_cases hreq : req.tripID = id
      · rw [hreq] at hf0 hgid
        rw [hf] at hf0
        cases hf0
        have hcaught : (putAddUser env db req).caught = none := by
          rw [putAddUser_ok hres]
        have hne : f.users ≠ [] := by
          intro hc
          simp [addsToEmpty, hreq, hf, hc, hcaught] at hg
        refine ⟨g, ?_, ?_⟩
        · have := findById_saveFolder_self db.folders g
          rwa [hgid] at this
        · rw [hgd]
          unfold visibilityOk
          have : 1 ≤ f.users.length := List.length_pos.mpr hne
          simp only [List.length_append, List.length_singleton, true_iff]
          omega
      · refine ⟨f, ?_, hok⟩
        show findById (saveFolder db.folders g) id = some f
        rw [findById_saveFolder_other _ _ _ (by rw [hgid]; exact hreq)]
        exact hf
  | removeMember env req =>
    simp only [applyCall]
    cases hres : removeUserTry env db req with
    | error e => rw [putRemoveUser_error hres]; exact ⟨f, hf, hok⟩
    | ok g =>
      rw [putRemoveUser_ok hres]
      obtain ⟨f0, u, hf0, hmem, hgd⟩ := removeUserTry_ok hres
      have hgid : g.id = req.tripID := by rw [hgd]; exact findById_id (f := f0) hf0
      by_cases hreq : req.tripID = id
      · rw [hreq] at hf0 hgid
        rw [hf] at hf0
        cases hf0
        refine ⟨g, ?_, ?_⟩
        · have := findById_saveFolder_self db.folders g
          rwa [hgid] at this
        · have hlen := splice1_length f.users u.id hmem
          have hpos : 1 ≤ f.users.length := List.length_pos.mpr (List.ne_nil_of_mem hmem)
          rw [hgd]
          unfold visibilityOk at hok ⊢
          simp only [hlen, beq_iff_eq]
          by_cases h1 : f.users.length - 1 = 1
          · simp [h1]
          · rw [if_neg h1, hok]
            omega
      · refine ⟨f, ?_, hok⟩
        show findById (saveFolder db.folders g) id = some f
        rw [findById_saveFolder_other _ _ _ (by rw [hgid]; exact hreq)]
        exact hf

/-- C1 (evaluation at the failing input): `alice` creates a folder, which
has her as only user and isShared = false, and leaves it, which empties its
users; she then adds `bob`. The add-user handler sets isShared = true whatever
the number of users, so the stored folder has the single member `bob` and
isShared = true, against the visibility invariant. On the sibling path, where
`alice` adds `bob` and `bob` leaves, the remove-user handler resets the flag
and the folder with the single member `alice` has isShared = false. -/
theorem visibility_broken_after_add_to_empty :
    findById (postCreate (session alice) emptyDb
        { folderName := some "Lisbon", tripDate := some "2024-05-01" }).db.folders "f1"
      = some { id := "f1", folderName := some "Lisbon",
               tripDate := .newDate (some "2024-05-01"),
               users := ["u-alice"], isShared := false, tripFiles := [] } ∧
    findById (runCalls (postCreate (session alice) emptyDb
          { folderName := some "Lisbon", tripDate := some "2024-05-01" }).db
        [.removeMember (session alice) { tripID := "f1" },
         .addMember (session alice) { tripID := "f1", addUsername := some "bob" }]).folders "f1"
      = some { id := "f1", folderName := some "Lisbon",
               tripDate := .newDate (some "2024-05-01"),
               users := ["u-bob"], isShared := true, tripFiles := [] } ∧
    ¬ visibilityOk { id := "f1", folderName := some "Lisbon",
                     tripDate := .newDate (some "2024-05-01"),
                     users := ["u-bob"], isShared := true, tripFiles := [] } ∧
    findById (runCalls (postCreate (session alice) emptyDb
          { folderName := some "Lisbon", tripDate := some "2024-05-01" }).db
        [.addMember (session alice) { tripID := "f1", addUsername := some "bob" },
         .removeMember (session bob) { tripID := "f1" }]).folders "f1"
      = some { id := "f1", folderName := some "Lisbon",
               tripDate := .newDate (some "2024-05-01"),
               users := ["u-alice"], isShared := false, tripFiles := [] } := by
  decide

/-- Apart from an add-user call that succeeds on a folder without members,
the handlers keep the visibility invariant: a newly created folder has its
creator as only user and isShared = false, and after every sequence of add-user
and remove-user calls none of which is a successful add-user call on the
folder while its users list is empty, the folder is still stored and
isShared = true holds exactly when users has at least two elements. -/
theorem visibility_kept_elsewhere (env0 : Env) (db : Db) (req0 : Request)
    (calls : List MemberCall) (hcreate : (postCreate env0 db req0).caught = none)
    (hguard : neverAddsToEmpty env0.freshId (postCreate env0 db req0).db calls = true) :
    (∃ u : User, env0.retrieved = .ok (some u) ∧
      (findById (postCreate env0 db req0).db.folders env0.freshId).map membership
        = some ([u.id], false)) ∧
    ∃ f, findById (runCalls (postCreate env0 db req0).db calls).folders env0.freshId = some f ∧
      visibilityOk f := by
  obtain ⟨u, hu, hstored⟩ := postCreate_stored hcreate
  refine ⟨⟨u, hu, by rw [hstored]; rfl⟩, ?_⟩
  have hstart : ∃ f, findById (postCreate env0 db req0).db.folders env0.freshId = some f ∧
      visibilityOk f := ⟨_, hstored, by unfold visibilityOk; simp⟩
  generalize (postCreate env0 db req0).db = start at hguard hstart
  induction calls generalizing start with
  | nil => exact hstart
  | cons c cs ih =>
    simp only [neverAddsToEmpty, Bool.and_eq_true, Bool.not_eq_true'] at hguard
    exact ih (applyCall start c) hguard.2
      (applyCall_keeps_visibility env0.freshId start c hstart hguard.1)

/-- An instance of `visibility_kept_elsewhere`: `alice` creates a folder and
leaves it, `carol`, a private account, is refused when she asks to add `bob` to
the empty folder, and nothing breaks the invariant. -/
theorem visibility_kept_elsewhere_example :
    ∃ f, findById (runCalls (postCreate (session alice) emptyDb
          { folderName := some "Lisbon", tripDate := some "2024-05-01" }).db
        [.removeMember (session alice) { tripID := "f1" },
         .addMember (session carol) { tripID := "f1", addUsername := some "bob" }]).folders "f1"
        = some f ∧
      visibilityOk f :=
  (visibility_kept_elsewhere (session alice) emptyDb
    { folderName := some "Lisbon", tripDate := some "2024-05-01" }
    [.removeMember (session alice) { tripID := "f1" },
     .addMember (session carol) { tripID := "f1", addUsername := some "bob" }]
    (by decide) (by decide)).2

/-! ## Add, then leave -/

/-- The `try` block of the create handler for an authenticated user. -/
theorem createTry_valid {env : Env} {req : Request} {a : User}
    (hauth : truthy req.authError = false) (henv : env.serves a) :
    createTry env req = .ok
      { id := env.freshId, folderName := req.folderName, tripDate := .newDate req.tripDate,
        users := [a.id], isShared := false, tripFiles := [] } := by
  obtain ⟨h1, -, -, h4⟩ := henv
  unfold createTry
  simp only [bind, Except.bind, pure, Except.pure, throw, throwThe, MonadExceptOf.throw]
  simp [hauth, awaitSave, h1, h4, defaultIsShared]

/-- Adding a valid target `b` and then letting `b` leave gives back the
folder document. -/
theorem add_then_leave (env1 env2 : Env) (db : Db) (req1 req2 : Request) (r b : User)
    (f : TripFolder)
    (hauth1 : truthy req1.authError = false) (hauth2 : truthy req2.authError = false)
    (henv1 : env1.serves r) (henv2 : env2.serves b)
    (hr : r.isPrivate = false) (hbp : b.isPrivate = false)
    (hname : req1.addUsername = some b.username) (hne : b.username ≠ "")
    (hb : findOne db.users b.username = some b) (hrb : b.username ≠ r.username)
    (hid : req2.tripID = req1.tripID)
    (hf : findById db.folders req1.tripID = some f)
    (hpos : f.users ≠ []) (hok : visibilityOk f) (hmem : b.id ∉ f.users) :
    (putAddUser env1 db req1).caught = none ∧
    findById (putAddUser env1 db req1).db.folders req1.tripID
      = some { f with users := f.users ++ [b.id], isShared := true } ∧
    (putRemoveUser env2 (putAddUser env1 db req1).db req2).caught = none ∧
    findById (putRemoveUser env2 (putAddUser env1 db req1).db req2).db.folders req1.tripID
      = some f := by
  have hfid : f.id = req1.tripID := findById_id hf
  have h1 := putAddUser_ok (addUserTry_valid hauth1 henv1 hr hname hne hb hbp hrb hf hmem)
  have hf1 : findById (putAddUser env1 db req1).db.folders req2.tripID
      = some { f with users := f.users ++ [b.id], isShared := true } := by
    rw [h1, hid]
    have := findById_saveFolder_self db.folders
      { f with users := f.users ++ [b.id], isShared := true }
    simpa [hfid] using this
  have h2 := putRemoveUser_ok (removeUserTry_member hauth2 henv2 hf1 (by simp))
  have hlen : 1 ≤ f.users.length := List.length_pos.mpr hpos
  have hshared : (if (f.users.length == 1) = true then false else true) = f.isShared := by
    unfold visibilityOk at hok
    by_cases h1 : f.users.length = 1
    · simp only [h1, beq_self_eq_true, if_true]
      cases hs : f.isShared with
      | false => rfl
      | true => rw [hs] at hok; have := hok.mp rfl; omega
    · have h2 : 2 ≤ f.users.length := by omega
      simp only [beq_iff_eq, h1, if_false]
      exact (hok.mpr h2).symm
  refine ⟨by rw [h1], by rw [← hid]; exact hf1, by rw [h2], ?_⟩
  rw [h2]
  simp only [splice1_append_self f.users b.id hmem, hshared]
  have := findById_saveFolder_self (putAddUser env1 db req1).db.folders f
  rwa [hfid] at this

/-- C8: a folder created by `a` has users = [a] and isShared = false; after
the add-user call of `a` for `b` it has users = [a, b] and isShared = true;
after the remove-user call of `b` it has users = [a] and isShared = false
again. More generally, on a folder with at least one member that satisfies the
visibility invariant and does not have `b` as a member, an add-user call for
`b` followed by the remove-user call of `b` gives back the stored folder, with
its users in the same order and its isShared. (Absence of duplicates is not
needed.) -/
theorem add_then_leave_round_trip :
    (∀ (env0 env1 env2 : Env) (db : Db) (req0 req1 req2 : Request) (a b : User),
      truthy req0.authError = false → truthy req1.authError = false →
      truthy req2.authError = false →
      env0.serves a → env1.serves a → env2.serves b →
      a.isPrivate = false → b.isPrivate = false →
      a.id ≠ b.id → a.username ≠ b.username → b.username ≠ "" →
      findOne db.users b.username = some b →
      req1.tripID = env0.freshId → req1.addUsername = some b.username →
      req2.tripID = env0.freshId →
      (findById (postCreate env0 db req0).db.folders env0.freshId).map membership
        = some ([a.id], false) ∧
      (findById (putAddUser env1 (postCreate env0 db req0).db req1).db.folders
          env0.freshId).map membership
        = some ([a.id, b.id], true) ∧
      (findById (putRemoveUser env2
          (putAddUser env1 (postCreate env0 db req0).db req1).db req2).db.folders
          env0.freshId).map membership
        = some ([a.id], false)) ∧
    (∀ (env1 env2 : Env) (db : Db) (req1 req2 : Request) (r b : User) (f : TripFolder),
      truthy req1.authError = false → truthy req2.authError = false →
      env1.serves r → env2.serves b →
      r.isPrivate = false → b.isPrivate = false →
      req1.addUsername = some b.username → b.username ≠ "" →
      findOne db.users b.username = some b → b.username ≠ r.username →
      req2.tripID = req1.tripID →
      findById db.folders req1.tripID = some f →
      f.users ≠ [] → visibilityOk f → b.id ∉ f.users →
      (putAddUser env1 db req1).caught = none ∧
      (putRemoveUser env2 (putAddUser env1 db req1).db req2).caught = none ∧
      findById (putRemoveUser env2 (putAddUser env1 db req1).db req2).db.folders req1.tripID
        = some f) := by
  constructor
  · intro env0 env1 env2 db req0 req1 req2 a b hauth0 hauth1 hauth2 henv0 henv1 henv2 ha hbp
      hids hnames hne hb hid1 hname hid2
    have hc : (postCreate env0 db req0).caught = none := by
      unfold postCreate; rw [createTry_valid hauth0 henv0]
    obtain ⟨u, hu, hstored⟩ := postCreate_stored hc
    rw [henv0.1] at hu
    cases hu
    have hb0 : findOne (postCreate env0 db req0).db.users b.username = some b := by
      unfold postCreate; rw [createTry_valid hauth0 henv0]; exact hb
    rw [← hid1] at hstored
    have h := add_then_leave env1 env2 (postCreate env0 db req0).db req1 req2 a b _
      hauth1 hauth2 henv1 henv2 ha hbp hname hne hb0 (Ne.symm hnames) (hid2.trans hid1.symm)
      hstored (by simp) (by unfold visibilityOk; simp) (by simpa using Ne.symm hids)
    rw [← hid1, hstored, h.2.1, h.2.2.2]
    exact ⟨rfl, rfl, rfl⟩
  · intro env1 env2 db req1 req2 r b f hauth1 hauth2 henv1 henv2 hr hbp hname hne hb hrb hid hf
      hpos hok hmem
    have h := add_then_leave env1 env2 db req1 req2 r b f hauth1 hauth2 henv1 henv2 hr hbp
      hname hne hb hrb hid hf hpos hok hmem
    exact ⟨h.1, h.2.2.1, h.2.2.2⟩

/-- C8 witness: `alice` creates a folder and adds `bob`, who then leaves; and
the same add and leave on the stored folder of `alice`. -/
theorem add_then_leave_round_trip_witness :
    (findById (putRemoveUser (session bob)
        (putAddUser (session alice) (postCreate (session alice) emptyDb
            { folderName := some "Lisbon", tripDate := some "2024-05-01" }).db
          { tripID := "f1", addUsername := some "bob" }).db
        { tripID := "f1" }).db.folders "f1").map membership = some (["u-alice"], false) ∧
    findById (putRemoveUser (session bob)
        (putAddUser (session alice) sampleDb { tripID := "f1", addUsername := some "bob" }).db
        { tripID := "f1" }).db.folders "f1" = some aliceFolder :=
  ⟨(add_then_leave_round_trip.1 (session alice) (session alice) (session bob) emptyDb
      { folderName := some "Lisbon", tripDate := some "2024-05-01" }
      { tripID := "f1", addUsername := some "bob" } { tripID := "f1" } alice bob
      (by decide) (by decide) (by decide) ⟨rfl, rfl, rfl, rfl⟩ ⟨rfl, rfl, rfl, rfl⟩
      ⟨rfl, rfl, rfl, rfl⟩ (by decide) (by decide) (by decide) (by decide) (by decide)
      (by decide) rfl rfl rfl).2.2,
   (add_then_leave_round_trip.2 (session alice) (session bob) sampleDb
      { tripID := "f1", addUsername := some "bob" } { tripID := "f1" } alice bob aliceFolder
      (by decide) (by decide) ⟨rfl, rfl, rfl, rfl⟩ ⟨rfl, rfl, rfl, rfl⟩ (by decide) (by decide)
      rfl (by decide) (by decide) (by decide) rfl (by decide) (by decide) (by decide)
      (by decide)).2.2⟩

/-! ## Folder listing for a private account -/

/-- C9 (counterexample): the private account `carol` lists shared folders
with the name filter `(`. The `RegExp` constructor raises a `SyntaxError` before
the account is looked at: the listing function renders nothing, so it carries
no message, and the route redirects to `/` with the text of the error. -/
theorem private_listing_with_unclosed_group :
    loadSearchableFolders (checkedSession carol) sampleDb { queryFolderName := some "(" }
        (some carol) "shared" =
      { sent := []
        queries := []
        raised := some (.error "SyntaxError"
          "Invalid regular expression: /(/i: Unterminated group") } ∧
    getListing (checkedSession carol) sampleDb { queryFolderName := some "(" } "shared" =
      { sent := [.redirect "/"
          (some "SyntaxError: Invalid regular expression: /(/i: Unterminated group")]
        queries := []
        raised := none } := by
  decide

/-- C9 (amended): for a private account, whatever the folder type, the name
filter and the store, the listing function makes no folder query and renders no
folders; when the name filter is absent, empty or accepted by the `RegExp`
constructor, it renders the view of the folder type with the
must-be-shared-to-access message. -/
theorem private_listing_refused (env : Env) (db : Db) (req : Request) (u : User)
    (folderType : String) (hp : u.isPrivate = true) :
    (loadSearchableFolders env db req (some u) folderType).queries = [] ∧
    (∀ view ctx, Response.render view ctx ∈
        (loadSearchableFolders env db req (some u) folderType).sent → ctx.tripFolders = none) ∧
    ((req.queryFolderName = none ∨ req.queryFolderName = some "" ∨
        ∃ n re, req.queryFolderName = some n ∧ env.newRegExp n = .ok re) →
      loadSearchableFolders env db req (some u) folderType =
        { sent := [.render ("tripFolders/" ++ folderType)
            { user := some u, searchOptions := some req.queryFolderName,
              errorMessage := some msgSharedToAccess }]
          queries := []
          raised := none }) := by
  have hload : loadSearchableFolders env db req (some u) folderType =
      match searchName env req with
      | .error e => { sent := [], queries := [], raised := some e }
      | .ok _ =>
        { sent := [.render ("tripFolders/" ++ folderType)
            { user := some u, searchOptions := some req.queryFolderName,
              errorMessage := some msgSharedToAccess }]
          queries := []
          raised := none } := by
    unfold loadSearchableFolders
    cases searchName env req <;> simp [hp]
  rw [hload]
  refine ⟨?_, ?_, ?_⟩
  · cases searchName env req <;> rfl
  · intro view ctx h
    cases hs : searchName env req with
    | error e => rw [hs] at h; simp at h
    | ok v =>
      rw [hs] at h
      simp only [List.mem_singleton, Response.render.injEq] at h
      rw [h.2]
  · rintro (h | h | ⟨n, re, h, hre⟩)
    · simp [searchName, h]
    · simp [searchName, h]
    · by_cases hn : n = ""
      · simp [searchName, h, hn]
      · simp [searchName, h, hn, hre, Except.map]

/-- C9 witness: `carol` lists private folders with the name filter `lis`. -/
theorem private_listing_refused_witness :
    (loadSearchableFolders (checkedSession carol) sampleDb { queryFolderName := some "lis" }
        (some carol) "private").queries = [] ∧
    loadSearchableFolders (checkedSession carol) sampleDb { queryFolderName := some "lis" }
        (some carol) "private" =
      { sent := [.render "tripFolders/private"
          { user := some carol, searchOptions := some (some "lis"),
            errorMessage := some msgSharedToAccess }]
        queries := []
        raised := none } :=
  have h := private_listing_refused (checkedSession carol) sampleDb
    { queryFolderName := some "lis" } carol "private" rfl
  ⟨h.1, h.2.2 (Or.inr (Or.inr ⟨"lis", { source := "lis", flags := "i" }, rfl, rfl⟩))⟩

/-! ## Edit and attach-file leave the membership alone -/

/-- What holds when the `try` block of the edit handler reaches its end. -/
theorem editTry_ok {env : Env} {db : Db} {req : Request} {g : TripFolder}
    (h : editTry env db req = .ok g) :
    ∃ f : TripFolder, findById db.folders req.tripID = some f ∧
      g = { f with folderName := req.folderName, tripDate := .assigned req.tripDate } := by
  unfold editTry at h
  simp only [bind, Except.bind, pure, Except.pure, throw, throwThe, MonadExceptOf.throw] at h
  split at h
  · cases h
  split at h
  · cases h
  split at h
  · cases h
  split at h
  swap
  · cases h
  exact ⟨_, (awaitFindById_ok (by assumption)).symm, awaitSave_ok h⟩

/-- The folder handed on by the first part of the attach-file handler is the
one found in the store. -/
theorem addFileSaveFile_ok {env : Env} {db : Db} {req : Request} {v : Option TripFolder}
    {file : TripFile} (h : addFileSaveFile env db req = .ok (v, file)) :
    v = findById db.folders req.tripID := by
  unfold addFileSaveFile at h
  simp only [bind, Except.bind, pure, Except.pure, throw, throwThe, MonadExceptOf.throw] at h
  split at h
  · cases h
  split at h
  · cases h
  split at h
  · cases h
  split at h
  swap
  · cases h
  split at h
  · cases h
  split at h
  · cases h
  cases h
  exact awaitFindById_ok (by assumption)

/-- Saving a document that has the id, users and isShared of the stored one
changes the membership fields of no folder. -/
theorem membership_saveFolder (fs : List TripFolder) (f g : TripFolder) (id : ObjectId)
    (hf : findById fs g.id = some f) (hm : membership g = membership f) :
    (findById (saveFolder fs g) id).map membership = (findById fs id).map membership := by
  by_cases hid : g.id = id
  · rw [← hid, findById_saveFolder_self, hf]
    simp [hm]
  · rw [findById_saveFolder_other _ _ _ hid]

/-- C10: the edit handler (`PUT /:tripID`) and the attach-file handler
(`POST /:tripID/addFile`) leave the users and isShared of every stored folder as
they were, whether they succeed or fail. -/
theorem edit_and_attach_keep_membership (env : Env) (db : Db) (req : Request)
    (id : ObjectId) :
    (findById (putTripFolder env db req).db.folders id).map membership
      = (findById db.folders id).map membership ∧
    (findById (postAddFile env db req).db.folders id).map membership
      = (findById db.folders id).map membership := by
  constructor
  · unfold putTripFolder
    cases hres : editTry env db req with
    | error e => rfl
    | ok g =>
      obtain ⟨f, hf, hg⟩ := editTry_ok hres
      have hgid : g.id = req.tripID := by rw [hg]; exact findById_id (f := f) hf
      exact membership_saveFolder db.folders f g id (by rw [hgid]; exact hf) (by rw [hg]; rfl)
  · unfold postAddFile
    cases hres : addFileSaveFile env db req with
    | error e => rfl
    | ok p =>
      obtain ⟨v, file⟩ := p
      have hv := addFileSaveFile_ok hres
      dsimp only
      cases hres2 : addFileSaveFolder env v file with
      | error e => rfl
      | ok g =>
        unfold addFileSaveFolder at hres2
        cases v with
        | none => cases hres2
        | some f =>
          have hg := awaitSave_ok hres2
          have hf : findById db.folders req.tripID = some f := hv.symm
          have hgid : g.id = req.tripID := by rw [hg]; exact findById_id (f := f) hf
          dsimp only
          exact membership_saveFolder db.folders f g id (by rw [hgid]; exact hf)
            (by rw [hg]; rfl)

end TravelSync
